import Mathlib

/-!
Verification of the container-codes HTTP edge-server core.

The definitions below are a shallow embedding of the Rust source:
* `crates/server/src/handlers/static_files.rs` (static asset resolver),
* `crates/server/src/handlers/files.rs` (upload / download / info),
* `crates/server/src/handlers/health.rs` (health check),
* `crates/server/src/middleware/request_id.rs` (correlation-id middleware),
* `crates/shared/src/security.rs` (`sanitize_filename`),
* `crates/shared/src/error.rs` (error taxonomy) and
  `crates/shared/src/types.rs` (API envelope).

Rust `std::path` semantics (`PathBuf::join`, `Path::starts_with`,
`Path::components`) are embedded for Unix paths, and the operating
system lexical resolution of `.` / `..` during `fs::read` is modelled
explicitly, since the path-traversal claims depend on it.
-/

namespace ContainerCodes

/-! ## Rust `std::path` model (Unix) -/

/-- A component of a Unix path, as produced by the Rust
`Path::components` iterator (no `Prefix` components exist on Unix). -/
inductive Component where
  | rootDir : Component
  | curDir : Component
  | parentDir : Component
  | normal : String → Component
deriving DecidableEq, Repr, BEq

/-- Split a character list on `'/'` separators (keeping empty parts). -/
def splitSlash : List Char → List (List Char)
  | [] => [[]]
  | c :: cs =>
    if c = '/' then [] :: splitSlash cs
    else
      match splitSlash cs with
      | [] => [[c]]
      | p :: ps => (c :: p) :: ps

/-- Rust `Path::components` for a Unix path: a leading `/` becomes
`RootDir`; repeated separators and trailing separators are ignored;
`.` parts are dropped except a literal leading `.` of a relative path
(which stays as `CurDir`); `..` parts stay as `ParentDir`. -/
def components (p : String) : List Component :=
  let cs := p.data
  let hasRoot : Bool := match cs with
    | '/' :: _ => true
    | _ => false
  let parts := (splitSlash cs).filter (fun part => part ≠ [])
  let keepCur : Bool := !hasRoot && (cs = ['.'] || cs.take 2 = ['.', '/'])
  let named := (parts.filter (fun part => part ≠ ['.'])).map
    (fun part =>
      if part = ['.', '.'] then Component.parentDir
      else Component.normal (String.mk part))
  (if hasRoot then [Component.rootDir] else [])
    ++ (if keepCur then [Component.curDir] else [])
    ++ named

/-- `str::starts_with('/')`, written on the character list so that it
evaluates inside the kernel. -/
def strHasLeadingSlash (s : String) : Bool :=
  match s.data with
  | '/' :: _ => true
  | _ => false

/-- `str::ends_with('/')`, written on the character list so that it
evaluates inside the kernel. -/
def strHasTrailingSlash (s : String) : Bool :=
  match s.data.getLast? with
  | some '/' => true
  | _ => false

/-- Rust `PathBuf::join` (Unix): an absolute argument replaces the
whole path; otherwise a separator is inserted when needed and the
argument is appended. -/
def rustJoin (self p : String) : String :=
  if strHasLeadingSlash p then p
  else if self = "" || strHasTrailingSlash self then self ++ p
  else self ++ "/" ++ p

/-- Rust `Path::starts_with`: component-wise prefix comparison. -/
def rustStartsWith (child base : String) : Bool :=
  (components base).isPrefixOf (components child)

/-- Rust `Path::file_name`: the last component when it is a normal
component, otherwise `none`. -/
def rustFileName (p : String) : Option String :=
  match (components p).getLast? with
  | some (Component.normal s) => some s
  | _ => none

/-- Rust `str::trim_start_matches('/')`: drop every leading `/`. -/
def trimLeadingSlashes (s : String) : String :=
  String.mk (s.data.dropWhile (fun c => c = '/'))

/-! ## Filesystem model -/

/-- Metadata and contents of one file, as exposed by `fs::metadata`
and `fs::read` (byte contents, creation / modification timestamps in
seconds, permission string). -/
structure FileData where
  contents : List Nat
  created : Int
  modified : Int
  perm : String
deriving DecidableEq, Repr

/-- The filesystem: a finite map from resolved absolute paths (as
component lists) to file data. -/
abbrev Fs := List (List String × FileData)

/-- Modelled OS path resolution: the kernel resolves `.` and `..`
lexically when a path is opened (`fs::read` / `fs::metadata`); `..`
at the root stays at the root.  Symbolic links are not modelled.
Only absolute paths resolve (every path the server opens is the
configured absolute root joined with a relative part). -/
def resolvePath (p : String) : Option (List String) :=
  if strHasLeadingSlash p then
    some (((splitSlash p.data).filter
        (fun part => part ≠ [] && part ≠ ['.'])).foldl
      (fun acc part =>
        if part = ['.', '.'] then acc.dropLast
        else acc ++ [String.mk part]) [])
  else none

/-- `fs::metadata`: look the resolved path up in the filesystem. -/
def fsStat (fs : Fs) (p : String) : Option FileData :=
  (resolvePath p).bind fun key =>
    (fs.find? (fun e => e.1 == key)).map (fun e => e.2)

/-- `fs::read`: the contents of the file at the resolved path. -/
def fsRead (fs : Fs) (p : String) : Option (List Nat) :=
  (fsStat fs p).map (fun d => d.contents)

/-- `fs::metadata(..).is_ok()`. -/
def fsExists (fs : Fs) (p : String) : Bool :=
  (fsStat fs p).isSome

end ContainerCodes

namespace ContainerCodes

/-! ## Sanity examples for the path model (kept as evidence that the
embedding evaluates). -/

example : components "/srv/root" =
    [Component.rootDir, Component.normal "srv", Component.normal "root"] := by
  decide

example : components "a/./b" = [Component.normal "a", Component.normal "b"] := by
  decide

example : components "./a" = [Component.curDir, Component.normal "a"] := by
  decide

example : rustJoin "/srv/root" "../x" = "/srv/root/../x" := by decide

example : rustStartsWith "/srv/root/../x" "/srv/root" = true := by decide

example : rustStartsWith "/etc/x" "/srv" = false := by decide

example : resolvePath "/srv/root/../x" = some ["srv", "x"] := by decide

example : trimLeadingSlashes "//a/b" = "a/b" := by decide

end ContainerCodes

namespace ContainerCodes

/-! ## `DefaultHasher` model (for `generate_etag`)

`static_files.rs` hashes the file contents with
`std::collections::hash_map::DefaultHasher`.  That hasher (Rust std,
outside this repository) is SipHash-1-3 with both keys zero, and
`Vec<u8>: Hash` feeds it the length as a little-endian `usize`
followed by the raw bytes.  It is reproduced here on `Nat` with
explicit reduction modulo `2 ^ 64`. -/

/-- Truncate to 64 bits. -/
def wrap64 (x : Nat) : Nat := x % 2 ^ 64

/-- 64-bit left rotation (input assumed `< 2 ^ 64`). -/
def rotl64 (x b : Nat) : Nat :=
  ((x * 2 ^ b) % 2 ^ 64) + (x / 2 ^ (64 - b))

/-- The four 64-bit state words of SipHash. -/
structure SipState where
  v0 : Nat
  v1 : Nat
  v2 : Nat
  v3 : Nat
deriving DecidableEq, Repr

/-- One SipHash round. -/
def sipRound (s : SipState) : SipState :=
  let v0 := wrap64 (s.v0 + s.v1)
  let v1 := rotl64 s.v1 13 ^^^ v0
  let v0 := rotl64 v0 32
  let v2 := wrap64 (s.v2 + s.v3)
  let v3 := rotl64 s.v3 16 ^^^ v2
  let v0 := wrap64 (v0 + v3)
  let v3 := rotl64 v3 21 ^^^ v0
  let v2 := wrap64 (v2 + v1)
  let v1 := rotl64 v1 17 ^^^ v2
  let v2 := rotl64 v2 32
  ⟨v0, v1, v2, v3⟩

/-- Little-endian word value of a byte list. -/
def leWord (bytes : List Nat) : Nat :=
  bytes.foldr (fun b acc => b + 256 * acc) 0

/-- The `n` little-endian bytes of a machine word. -/
def leBytes (n x : Nat) : List Nat :=
  (List.range n).map (fun i => x / 256 ^ i % 256)

/-- SipHash-1-3 message processing: one round per full 8-byte block,
then the final block carrying `len mod 256` in the top byte, then
three finalization rounds. -/
def sipCompress (totalLen : Nat) : List Nat → SipState → SipState
  | b0 :: b1 :: b2 :: b3 :: b4 :: b5 :: b6 :: b7 :: rest, s =>
    let w := leWord [b0, b1, b2, b3, b4, b5, b6, b7]
    let s := sipRound { s with v3 := s.v3 ^^^ w }
    let s := { s with v0 := s.v0 ^^^ w }
    sipCompress totalLen rest s
  | rem, s =>
    let b := wrap64 (totalLen % 256 * 2 ^ 56 + leWord rem)
    let s := sipRound { s with v3 := s.v3 ^^^ b }
    let s := { s with v0 := s.v0 ^^^ b }
    let s := { s with v2 := s.v2 ^^^ 0xff }
    sipRound (sipRound (sipRound s))

/-- SipHash-1-3 with zero keys over a byte message. -/
def sipHash13 (m : List Nat) : Nat :=
  let s := sipCompress m.length m
    ⟨0x736f6d6570736575, 0x646f72616e646f6d,
     0x6c7967656e657261, 0x7465646279746573⟩
  s.v0 ^^^ s.v1 ^^^ s.v2 ^^^ s.v3

/-- `DefaultHasher` applied to a `Vec<u8>`: hash the length-prefixed
byte stream and `finish`. -/
def defaultHash (contents : List Nat) : Nat :=
  sipHash13 (leBytes 8 contents.length ++ contents)

/-- `generate_etag` (static_files.rs:124-131): quoted decimal
`DefaultHasher` digest of the full file contents. -/
def generate_etag (contents : List Nat) : String :=
  "\"" ++ toString (defaultHash contents) ++ "\""

/-! ## MIME model -/

/-- Modelled from the spec: the Content Negotiation Helper "maps a
filesystem path to a MIME type" through the external `mime_guess`
crate (not part of this repository).  Embedded as a small extension
table with the `first_or_octet_stream` default; no claim depends on
the table entries. -/
def mime_from_path (p : String) : String :=
  match rustFileName p with
  | none => "application/octet-stream"
  | some name =>
    let rev := name.data.reverse
    let extRev := rev.takeWhile (fun c => c ≠ '.')
    if extRev.length = rev.length then "application/octet-stream"
    else
      match String.mk extRev.reverse with
      | "html" => "text/html"
      | "css" => "text/css"
      | "js" => "text/javascript"
      | "json" => "application/json"
      | "png" => "image/png"
      | "txt" => "text/plain"
      | _ => "application/octet-stream"

/-! ## Configuration view (config.rs) -/

/-- `StaticConfig` (config.rs:42-50): the fields the handlers read. -/
structure StaticConfig where
  enabled : Bool
  root : String
  index_files : List String
  cache_control : String
  etag : Bool
deriving Repr

/-- `SecurityConfig` (config.rs:53-65): the fields the handlers read. -/
structure SecurityConfig where
  security_headers : Bool
  frame_options : String
  xss_protection : Bool
deriving Repr

/-- The slice of `Config` reachable from the handlers under
verification (`config.server.static_files`, `config.server.security`). -/
structure AppConfig where
  static_files : StaticConfig
  security : SecurityConfig
deriving Repr

/-! ## Responses and errors -/

/-- A response body: an HTML string (`Html(..).to_string().into()`) or
raw file bytes (`Vec<u8>::into`). -/
inductive Body where
  | html : String → Body
  | bytes : List Nat → Body
deriving DecidableEq, Repr

/-- An HTTP response: status code, headers in insertion order, body. -/
structure Response where
  status : Nat
  headers : List (String × String)
  body : Body
deriving DecidableEq, Repr

/-- The error taxonomy (`shared/src/error.rs`), restricted to the
constructors the handlers under verification produce. -/
inductive Error where
  | io : Error
  | http : String → Error
  | validation : String → Error
  | internal : String → Error
deriving DecidableEq, Repr

/-- The API envelope (`shared/src/types.rs`): exactly one of
payload / error, plus correlation id and timestamp. -/
structure ApiResponse (T : Type) where
  data : Option T
  error : Option (String × String)
  request_id : String
  timestamp : Int
deriving DecidableEq, Repr

/-- `ApiResponse::success` (types.rs:216-223); the fresh request id
and clock reading are passed in explicitly. -/
def ApiResponse.success (data : T) (rid : String) (ts : Int) : ApiResponse T :=
  { data := some data, error := none, request_id := rid, timestamp := ts }

end ContainerCodes

namespace ContainerCodes

/-! ## `sanitize_filename` (shared/src/security.rs:140-145) -/

/-- The character class kept by `sanitize_filename`.  the Rust
`char::is_alphanumeric` predicate is Unicode-aware; it is embedded as the ASCII
alphanumerics (`Char.isAlphanum`) — every input exercised by the
claims and by the tests of the crate is ASCII. -/
def keptChar (c : Char) : Bool :=
  c.isAlphanum || c = '.' || c = '_' || c = '-'

/-- `sanitize_filename`: keep alphanumerics, dots, underscores and
hyphens, drop everything else. -/
def sanitize_filename (filename : String) : String :=
  String.mk (filename.data.filter keptChar)

/-! ## Static asset resolver (handlers/static_files.rs) -/

/-- `not_found_response` (static_files.rs:133-139). -/
def not_found_response : Response :=
  { status := 404
    headers := [("content-type", "text/html")]
    body := Body.html
      "<h1>404 Not Found</h1><p>The requested resource was not found.</p>" }

/-- `forbidden_response` (static_files.rs:141-147). -/
def forbidden_response : Response :=
  { status := 403
    headers := [("content-type", "text/html")]
    body := Body.html "<h1>403 Forbidden</h1><p>Access denied.</p>" }

/-- `serve_file` (static_files.rs:67-106): read the file, then build
the 200 response with MIME type, optional content-hash ETag, the
configured cache-control value and the configured security headers. -/
def serve_file (cfg : AppConfig) (fs : Fs) (file_path : String) :
    Except Error Response :=
  match fsRead fs file_path with
  | none => Except.error Error.io
  | some contents =>
    let mime_type := mime_from_path file_path
    let headers :=
      [("content-type", mime_type)]
        ++ (if cfg.static_files.etag then
              [("etag", generate_etag contents)]
            else [])
        ++ [("cache-control", cfg.static_files.cache_control)]
        ++ (if cfg.security.security_headers then
              [("x-content-type-options", "nosniff"),
               ("x-frame-options", cfg.security.frame_options)]
                ++ (if cfg.security.xss_protection then
                      [("X-XSS-Protection", "1; mode=block")]
                    else [])
            else [])
    Except.ok { status := 200, headers := headers, body := Body.bytes contents }

/-- `find_index_file` (static_files.rs:108-116): first index file
name, in configured order, whose `fs::metadata` succeeds under the
root. -/
def find_index_file (fs : Fs) (static_root : String) :
    List String → Option String
  | [] => none
  | index_file :: rest =>
    let index_path := rustJoin static_root index_file
    if fsExists fs index_path then some index_path
    else find_index_file fs static_root rest

/-- `str::contains('.')`, written on the character list so that it
evaluates inside the kernel. -/
def strContainsDot (s : String) : Bool :=
  s.data.contains '.'

/-- `is_spa_route` (static_files.rs:118-122): no `'.'` anywhere in
the (whole) path, and the path is non-empty. -/
def is_spa_route (path : String) : Bool :=
  !strContainsDot path && !(path = "")

/-- The containment check written inline in `serve_static`
(static_files.rs:29-35): join the request path onto the root and
require the result to start with the root. -/
def serve_static_check (static_root path : String) : Bool :=
  rustStartsWith (rustJoin static_root path) static_root

/-- Outcome of the path-resolution phase of `serve_static`
(static_files.rs:26-38): the `Option<PathBuf>` together with the
early `forbidden` return. -/
inductive Resolved where
  | forbidden : Resolved
  | missing : Resolved
  | found : String → Resolved
deriving DecidableEq, Repr

/-- The resolution phase of `serve_static`: empty paths search the
index files, non-empty paths are joined onto the root and checked. -/
def resolve_request (cfg : AppConfig) (fs : Fs) (path : String) : Resolved :=
  if path = "" then
    match find_index_file fs cfg.static_files.root cfg.static_files.index_files with
    | some p => Resolved.found p
    | none => Resolved.missing
  else
    let requested_path := rustJoin cfg.static_files.root path
    if !serve_static_check cfg.static_files.root path then Resolved.forbidden
    else Resolved.found requested_path

/-- `serve_static` (static_files.rs:13-65): the full static asset
resolver, including the SPA fallback retry. -/
def serve_static (cfg : AppConfig) (fs : Fs) (uriPath : String) : Response :=
  if !cfg.static_files.enabled then not_found_response
  else
    let path := trimLeadingSlashes uriPath
    match resolve_request cfg fs path with
    | Resolved.forbidden => forbidden_response
    | Resolved.missing => not_found_response
    | Resolved.found file_path =>
      match serve_file cfg fs file_path with
      | Except.ok response => response
      | Except.error _ =>
        if is_spa_route path then
          match find_index_file fs cfg.static_files.root
              cfg.static_files.index_files with
          | some index_path =>
            match serve_file cfg fs index_path with
            | Except.ok response => response
            | Except.error _ => not_found_response
          | none => not_found_response
        else not_found_response

end ContainerCodes

namespace ContainerCodes

/-! ## File API handlers (handlers/files.rs) -/

/-- The containment check written inline in `download_file`
(files.rs:79-87). -/
def download_file_check (static_root file_path : String) : Bool :=
  rustStartsWith (rustJoin static_root file_path) static_root

/-- The containment check written inline in `file_info`
(files.rs:119-127). -/
def file_info_check (static_root file_path : String) : Bool :=
  rustStartsWith (rustJoin static_root file_path) static_root

/-- `download_file` (files.rs:75-112): containment check, then read
and stream the file as an attachment. -/
def download_file (static_root : String) (fs : Fs) (file_path : String) :
    Except Error Response :=
  let full_path := rustJoin static_root file_path
  if !download_file_check static_root file_path then
    Except.error (Error.validation "Invalid file path")
  else
    match fsRead fs full_path with
    | some contents =>
      let mime_type := mime_from_path full_path
      let file_name := (rustFileName full_path).getD "download"
      Except.ok
        { status := 200
          headers :=
            [("content-type", mime_type),
             ("content-disposition",
               "attachment; filename=\"" ++ file_name ++ "\"")]
          body := Body.bytes contents }
    | none => Except.error (Error.http "File not found")

/-- `FileInfo` (shared/src/types.rs:161-169). -/
structure FileInfo where
  path : String
  size : Nat
  mime_type : String
  created_at : Int
  modified_at : Int
  etag : String
  permissions : String
deriving DecidableEq, Repr

/-- The synthetic ETag built inline in `file_info` (files.rs:145-149):
quoted `"{size}-{mtime}"`. -/
def file_info_etag (size : Nat) (modified : Int) : String :=
  "\"" ++ toString size ++ "-" ++ toString modified ++ "\""

/-- `file_info` (files.rs:114-165): containment check, then stat the
file and build the metadata record. -/
def file_info (static_root : String) (fs : Fs) (file_path : String)
    (rid : String) (ts : Int) : Except Error (ApiResponse FileInfo) :=
  let full_path := rustJoin static_root file_path
  if !file_info_check static_root file_path then
    Except.error (Error.validation "Invalid file path")
  else
    match fsStat fs full_path with
    | some metadata =>
      Except.ok (ApiResponse.success
        { path := file_path
          size := metadata.contents.length
          mime_type := mime_from_path full_path
          created_at := metadata.created
          modified_at := metadata.modified
          etag := file_info_etag metadata.contents.length metadata.modified
          permissions := metadata.perm } rid ts)
    | none => Except.error (Error.http "File not found")

/-! ## Upload handler (files.rs:17-72), with an explicit trace of the
filesystem side effects so that effect-ordering claims are statable. -/

/-- One multipart form field: optional name, optional client-supplied
filename, raw bytes. -/
structure MultipartField where
  name : Option String
  filename : Option String
  data : List Nat
deriving DecidableEq, Repr

/-- A filesystem side effect performed (or attempted) by the upload
handler, in order. -/
inductive FsEffect where
  | createDirAll : String → FsEffect
  | readField : String → FsEffect
  | write : String → List Nat → FsEffect
deriving DecidableEq, Repr

/-- The stored-filename choice (files.rs:38-41): sanitize the supplied
name, or fall back to `upload_{uuid}` when no filename was supplied. -/
def upload_file_name (filename : Option String) (uuid : String) : String :=
  match filename with
  | some n => sanitize_filename n
  | none => "upload_" ++ uuid

/-- The `while let` field loop of `upload_file` (files.rs:32-67): skip
fields not named `file`; on the first one named `file`, write its bytes
and answer; if none is named `file`, fail with the validation error. -/
def upload_loop (upload_dir : String) (write_ok : String → Bool)
    (uuid rid : String) (ts : Int) :
    List MultipartField → Except Error (ApiResponse String) × List FsEffect
  | [] =>
    (Except.error (Error.validation "No file field found in multipart request"),
     [])
  | field :: rest =>
    let name := field.name.getD "unknown"
    if name = "file" then
      let file_name := upload_file_name field.filename uuid
      let file_path := rustJoin upload_dir file_name
      if write_ok file_path then
        (Except.ok (ApiResponse.success
            ("File '" ++ file_name ++ "' uploaded successfully") rid ts),
         [FsEffect.readField name, FsEffect.write file_path field.data])
      else
        (Except.error (Error.internal "Failed to save uploaded file"),
         [FsEffect.readField name, FsEffect.write file_path field.data])
    else
      let step := upload_loop upload_dir write_ok uuid rid ts rest
      (step.1, FsEffect.readField name :: step.2)

/-- `upload_file` (files.rs:17-72): create `<root>/uploads` first
(failing with an internal error if that fails), then run the field
loop.  `create_dir_ok` and `write_ok` stand for the outcome of the
corresponding filesystem calls; the second component is the ordered
trace of attempted filesystem effects. -/
def upload_file (static_root : String) (create_dir_ok : Bool)
    (write_ok : String → Bool) (fields : List MultipartField)
    (uuid rid : String) (ts : Int) :
    Except Error (ApiResponse String) × List FsEffect :=
  let upload_dir := rustJoin static_root "uploads"
  if !create_dir_ok then
    (Except.error (Error.internal "Failed to create upload directory"),
     [FsEffect.createDirAll upload_dir])
  else
    let step := upload_loop upload_dir write_ok uuid rid ts fields
    (step.1, FsEffect.createDirAll upload_dir :: step.2)

/-! ## Health handler (handlers/health.rs) -/

/-- `HealthStatus` (shared/src/types.rs:31-36), with the checks map
embedded as an association list in insertion order. -/
structure HealthStatus where
  status : String
  timestamp : Int
  checks : List (String × String)
  uptime : Nat
deriving DecidableEq, Repr

/-- The `HealthStatus` value built by `health_check`
(health.rs:15-47).  `db` is the database collaborator: `none` when not
configured, otherwise the probe outcome. -/
def health_snapshot (db : Option Bool) (ts : Int) (uptime : Nat) :
    HealthStatus :=
  let checks : List (String × String) :=
    [("database",
      match db with
      | some true => "healthy"
      | some false => "unhealthy"
      | none => "disabled"),
     ("redis", "healthy"),
     ("docker", "healthy")]
  { status :=
      if checks.all (fun kv => kv.2 == "healthy" || kv.2 == "disabled") then
        "healthy"
      else "unhealthy"
    timestamp := ts
    checks := checks
    uptime := uptime }

/-- `health_check` (health.rs:12-50): wrap the snapshot in a success
envelope.  The handler never returns an error value. -/
def health_check (db : Option Bool) (rid : String) (ts : Int)
    (uptime : Nat) : Except Error (ApiResponse HealthStatus) :=
  Except.ok (ApiResponse.success (health_snapshot db ts uptime) rid ts)

/-! ## Correlation-id middleware (middleware/request_id.rs) -/

/-- `REQUEST_ID_HEADER` (request_id.rs:10). -/
def REQUEST_ID_HEADER : String := "x-request-id"

/-- An inbound HTTP request, reduced to its header map (the only part
the middleware touches). -/
structure HttpRequest where
  headers : List (String × String)
deriving DecidableEq, Repr

/-- `HeaderMap::get`: first entry with the given name. -/
def getHeader (headers : List (String × String)) (name : String) :
    Option String :=
  (headers.find? (fun kv => kv.1 == name)).map (fun kv => kv.2)

/-- `HeaderMap::insert`: replace any existing value for the name. -/
def insertHeader (headers : List (String × String)) (name value : String) :
    List (String × String) :=
  headers.filter (fun kv => kv.1 ≠ name) ++ [(name, value)]

/-- A character a `HeaderValue` may expose through `to_str` (visible
ASCII, per the `http` crate). -/
def isVisibleAscii (c : Char) : Bool :=
  32 ≤ c.toNat && c.toNat < 127

/-- `HeaderValue::to_str`: succeeds exactly on visible-ASCII values
(header values are embedded as strings of bytes-as-chars). -/
def headerToStr (v : String) : Option String :=
  if v.data.all isVisibleAscii then some v else none

/-- `RequestIdService::call` (request_id.rs:47-77): reuse a present,
well-formed `x-request-id`; otherwise attach the freshly generated
UUID `freshId` to the request; after the inner service answers,
overwrite the `x-request-id` of the response with that same id. -/
def request_id_call (inner : HttpRequest → Response)
    (request : HttpRequest) (freshId : String) : Response :=
  match (getHeader request.headers REQUEST_ID_HEADER).bind headerToStr with
  | some request_id =>
    let response := inner request
    { response with
        headers := insertHeader response.headers REQUEST_ID_HEADER request_id }
  | none =>
    let request :=
      { request with
          headers := insertHeader request.headers REQUEST_ID_HEADER freshId }
    let response := inner request
    { response with
        headers := insertHeader response.headers REQUEST_ID_HEADER freshId }

end ContainerCodes

namespace ContainerCodes

/-! ## Concrete fixtures used by counterexamples and witnesses -/

/-- A concrete configuration: static files enabled, root `/srv/root`,
one index file, ETag generation and security headers off. -/
def webConfig : AppConfig :=
  { static_files :=
      { enabled := true
        root := "/srv/root"
        index_files := ["index.html"]
        cache_control := "public, max-age=3600"
        etag := false }
    security :=
      { security_headers := false
        frame_options := "DENY"
        xss_protection := false } }

/-- A filesystem holding one file `/srv/secret.txt` that lies outside
the static root `/srv/root`. -/
def fsOutside : Fs :=
  [(["srv", "secret.txt"],
    { contents := [42, 43], created := 0, modified := 0, perm := "644" })]

/-- A filesystem holding only the index file `/srv/root/index.html`
under the static root. -/
def fsSite : Fs :=
  [(["srv", "root", "index.html"],
    { contents := [1, 2, 3], created := 0, modified := 0, perm := "644" })]

/-- C1: for the request path `/../secret.txt` against static root
`/srv/root`, the containment check passes (join of a relative path
always starts with the root), the resolver reads and serves with
status 200 the file `/srv/secret.txt`, which resolves outside the
static root — the claimed Forbidden rejection of `..` segments never
happens.  This evaluates the embedded `serve_static` at the failing
input of the code-bug verdict. -/
theorem C1_traversal_request_served :
    serve_static webConfig fsOutside "/../secret.txt" =
      { status := 200
        headers :=
          [("content-type", "text/plain"),
           ("cache-control", "public, max-age=3600")]
        body := Body.bytes [42, 43] }
    ∧ serve_static_check "/srv/root" "../secret.txt" = true
    ∧ resolvePath (rustJoin "/srv/root" "../secret.txt") =
        some ["srv", "secret.txt"]
    ∧ List.isPrefixOf ["srv", "root"] ["srv", "secret.txt"] = false
    ∧ serve_static webConfig fsOutside "/../secret.txt" ≠ forbidden_response := by
  refine ⟨by decide, by decide, by decide, by decide, by decide⟩

/-- C3 counterexample: a present filename that sanitizes to the empty
string (here `"???"`) is used as the empty name — no generated name
with a random token replaces it, contradicting the claim that an
empty sanitized result triggers a generated name. -/
theorem C3_empty_sanitized_name_counterexample :
    upload_file_name (some "???") "0f3a" = ""
    ∧ sanitize_filename "???" = ""
    ∧ ("" : String) ≠ "upload_" ++ "0f3a" := by
  refine ⟨by decide, by decide, by decide⟩

/-- Two files with the same single byte of content but different
modification times. -/
def fileSameBytesEarly : FileData :=
  { contents := [9], created := 0, modified := 0, perm := "644" }

/-- Same contents as `fileSameBytesEarly`, later modification time. -/
def fileSameBytesLate : FileData :=
  { contents := [9], created := 0, modified := 1, perm := "644" }

/-- A file whose single content byte is `0`. -/
def fileZero : FileData :=
  { contents := [0], created := 0, modified := 0, perm := "644" }

/-- A file whose single content byte is `1`; same size and
modification time as `fileZero`. -/
def fileOne : FileData :=
  { contents := [1], created := 0, modified := 0, perm := "644" }

/-- C8: the two ETag algorithms are distinct.  Identical contents with
different modification times give equal static (content-hash) ETags
but different file-info (size + mtime) ETags; different contents of
equal size and mtime give equal file-info ETags but different static
ETags. -/
theorem C8_etag_algorithms_distinct :
    (generate_etag fileSameBytesEarly.contents =
        generate_etag fileSameBytesLate.contents
      ∧ file_info_etag fileSameBytesEarly.contents.length
          fileSameBytesEarly.modified ≠
        file_info_etag fileSameBytesLate.contents.length
          fileSameBytesLate.modified)
    ∧ (file_info_etag fileZero.contents.length fileZero.modified =
        file_info_etag fileOne.contents.length fileOne.modified
      ∧ generate_etag fileZero.contents ≠ generate_etag fileOne.contents) := by
  refine ⟨⟨by decide, by decide⟩, ⟨by decide, by decide⟩⟩

end ContainerCodes

namespace ContainerCodes

deriving instance DecidableEq for Except

/-- C2 counterexample: the request path `v1.2/users` has a final
segment (`users`) with no `.`, direct resolution fails, and the index
file exists — the claim demands the index-file retry, but the code
tests the whole path for `.` (`is_spa_route`), finds the `.` in
`v1.2`, and answers 404 without any fallback. -/
theorem C2_final_segment_counterexample :
    serve_static webConfig fsSite "/v1.2/users" = not_found_response
    ∧ List.contains ("users".data) '.' = false
    ∧ serve_file webConfig fsSite
        (rustJoin "/srv/root" "v1.2/users") = Except.error Error.io
    ∧ find_index_file fsSite "/srv/root" ["index.html"] =
        some "/srv/root/index.html"
    ∧ (serve_file webConfig fsSite "/srv/root/index.html").isOk = true
    ∧ not_found_response.status = 404 := by
  refine ⟨by decide, by decide, by decide, by decide, by decide, by decide⟩

end ContainerCodes

namespace ContainerCodes

/-- C2 (amended): for a non-empty request path that passes the
containment check and whose direct file read fails, the resolver
retries index-file resolution exactly once — expressed by equality to
the non-recursive single-retry expression — when the whole path
contains no `.`, and answers 404 with no fallback when the path
contains a `.` anywhere (in particular when the final segment does). -/
theorem C2_whole_path_spa_fallback (cfg : AppConfig) (fs : Fs)
    (uriPath : String)
    (henabled : cfg.static_files.enabled = true)
    (hne : trimLeadingSlashes uriPath ≠ "")
    (hcheck : serve_static_check cfg.static_files.root
      (trimLeadingSlashes uriPath) = true)
    (hfail : serve_file cfg fs
      (rustJoin cfg.static_files.root (trimLeadingSlashes uriPath)) =
        Except.error Error.io) :
    (strContainsDot (trimLeadingSlashes uriPath) = false →
      serve_static cfg fs uriPath =
        (match find_index_file fs cfg.static_files.root
            cfg.static_files.index_files with
        | some index_path =>
          (match serve_file cfg fs index_path with
          | Except.ok r => r
          | Except.error _ => not_found_response)
        | none => not_found_response))
    ∧ (strContainsDot (trimLeadingSlashes uriPath) = true →
        serve_static cfg fs uriPath = not_found_response) := by
  constructor
  · intro hdot
    simp [serve_static, resolve_request, henabled, hne, hcheck, hfail,
      is_spa_route, hdot]
  · intro hdot
    simp [serve_static, resolve_request, henabled, hne, hcheck, hfail,
      is_spa_route, hdot]

/-- Witness for the amended C2: the dot-free route `/app-route` with no
matching file is answered with the contents of `/srv/root/index.html`. -/
theorem C2_whole_path_spa_fallback_witness :
    strContainsDot (trimLeadingSlashes "/app-route") = false
    ∧ serve_static webConfig fsSite "/app-route" =
        { status := 200
          headers :=
            [("content-type", "text/html"),
             ("cache-control", "public, max-age=3600")]
          body := Body.bytes [1, 2, 3] } :=
  ⟨by decide, by
    have h := (C2_whole_path_spa_fallback webConfig fsSite "/app-route" rfl
      (by decide) (by decide) (by decide)).1 (by decide)
    exact h.trans (by decide)⟩

/-- `find_index_file` returns the first name of the configured list,
in order, that exists under the root, joined onto the root. -/
theorem find_index_file_spec (fs : Fs) (root : String) (idx : List String) :
    find_index_file fs root idx =
      (idx.find? (fun i => fsExists fs (rustJoin root i))).map
        (fun i => rustJoin root i) := by
  induction idx with
  | nil => rfl
  | cons i rest ih =>
    by_cases h : fsExists fs (rustJoin root i)
    · simp [find_index_file, List.find?, h]
    · simp [find_index_file, List.find?, h, ih]

/-- A path returned by `find_index_file` exists on the filesystem. -/
theorem find_index_file_exists (fs : Fs) (root : String) (idx : List String)
    (p : String) (h : find_index_file fs root idx = some p) :
    fsExists fs p = true := by
  induction idx with
  | nil => cases h
  | cons i rest ih =>
    by_cases hex : fsExists fs (rustJoin root i)
    · simp [find_index_file, hex] at h
      rw [← h]
      exact hex
    · simp [find_index_file, hex] at h
      exact ih h

/-- `serve_file` succeeds on every path that exists on the
filesystem. -/
theorem serve_file_isOk_of_exists (cfg : AppConfig) (fs : Fs) (p : String)
    (h : fsExists fs p = true) : (serve_file cfg fs p).isOk = true := by
  unfold fsExists at h
  cases hstat : fsStat fs p with
  | none => rw [hstat] at h; simp at h
  | some d => simp [serve_file, fsRead, hstat, Except.isOk, Except.toBool]

/-- C7: an empty request path is answered from the index-file search:
the first configured index file that exists under the root is served
(the search is the ordered `find?` over the configured list, and
serving an existing file succeeds), and the answer is 404 when no
configured index file exists. -/
theorem C7_empty_path_serves_first_index (cfg : AppConfig) (fs : Fs)
    (uriPath : String)
    (henabled : cfg.static_files.enabled = true)
    (hempty : trimLeadingSlashes uriPath = "") :
    (serve_static cfg fs uriPath =
      (match find_index_file fs cfg.static_files.root
          cfg.static_files.index_files with
      | some index_path =>
        (match serve_file cfg fs index_path with
         | Except.ok r => r
         | Except.error _ => not_found_response)
      | none => not_found_response))
    ∧ find_index_file fs cfg.static_files.root cfg.static_files.index_files =
        (cfg.static_files.index_files.find?
          (fun i => fsExists fs (rustJoin cfg.static_files.root i))).map
          (fun i => rustJoin cfg.static_files.root i)
    ∧ (∀ index_path,
        find_index_file fs cfg.static_files.root cfg.static_files.index_files
          = some index_path →
        (serve_file cfg fs index_path).isOk = true)
    ∧ (find_index_file fs cfg.static_files.root cfg.static_files.index_files
          = none →
        serve_static cfg fs uriPath = not_found_response) := by
  refine ⟨?_, find_index_file_spec fs cfg.static_files.root _, ?_, ?_⟩
  · cases hfind : find_index_file fs cfg.static_files.root
        cfg.static_files.index_files with
    | none => simp [serve_static, resolve_request, henabled, hempty, hfind]
    | some ip =>
      cases hserve : serve_file cfg fs ip with
      | ok r =>
        simp [serve_static, resolve_request, henabled, hempty, hfind, hserve]
      | error e =>
        simp [serve_static, resolve_request, henabled, hempty, hfind, hserve,
          is_spa_route]
  · intro ip hip
    exact serve_file_isOk_of_exists cfg fs ip
      (find_index_file_exists fs cfg.static_files.root _ ip hip)
  · intro hnone
    simp [serve_static, resolve_request, henabled, hempty, hnone]

/-- Witness for C7: the root request `/` is answered with the contents
of `/srv/root/index.html`. -/
theorem C7_empty_path_serves_first_index_witness :
    trimLeadingSlashes "/" = ""
    ∧ serve_static webConfig fsSite "/" =
        { status := 200
          headers :=
            [("content-type", "text/html"),
             ("cache-control", "public, max-age=3600")]
          body := Body.bytes [1, 2, 3] } :=
  ⟨by decide, by
    have h := (C7_empty_path_serves_first_index webConfig fsSite "/" rfl
      (by decide)).1
    exact h.trans (by decide)⟩

end ContainerCodes

namespace ContainerCodes

/-- C3 (amended): `sanitize_filename` keeps exactly the alphanumerics,
dots, underscores and hyphens (so `"my file!.txt"` becomes
`"myfile.txt"`); a generated `upload_{token}` name is used exactly
when the filename is absent, and distinct tokens give distinct
generated names.  (When a supplied filename sanitizes to the empty
string, the empty string is used — see the counterexample.) -/
theorem C3_sanitize_filter_and_generated_name (s u u' : String) :
    sanitize_filename "my file!.txt" = "myfile.txt"
    ∧ (sanitize_filename s).data = s.data.filter keptChar
    ∧ upload_file_name none u = "upload_" ++ u
    ∧ (u ≠ u' → upload_file_name none u ≠ upload_file_name none u') := by
  refine ⟨by decide, rfl, rfl, ?_⟩
  intro hne heq
  apply hne
  have heq' : "upload_" ++ u = "upload_" ++ u' := heq
  have h1 : ("upload_" ++ u).data = ("upload_" ++ u').data :=
    congrArg String.data heq'
  simp [String.data_append] at h1
  exact String.ext h1

/-- Witness for the amended C3: tokens `a` and `b` give the distinct
generated names `upload_a` and `upload_b`. -/
theorem C3_sanitize_filter_and_generated_name_witness :
    ("a" : String) ≠ "b"
    ∧ upload_file_name none "a" ≠ upload_file_name none "b" :=
  ⟨by decide,
   (C3_sanitize_filter_and_generated_name "x" "a" "b").2.2.2 (by decide)⟩

/-- C4: the health handler records `healthy` / `unhealthy` /
`disabled` for the database according to the probe, its aggregate
status is `healthy` exactly when every recorded status is `healthy`
or `disabled`, and the handler always returns a success value. -/
theorem C4_health_snapshot_and_success (db : Option Bool) (rid : String)
    (ts : Int) (uptime : Nat) :
    (health_check db rid ts uptime).isOk = true
    ∧ health_check db rid ts uptime =
        Except.ok (ApiResponse.success (health_snapshot db ts uptime) rid ts)
    ∧ ((health_snapshot db ts uptime).checks.find?
        (fun kv => kv.1 == "database")).map (fun kv => kv.2) =
        some (match db with
              | some true => "healthy"
              | some false => "unhealthy"
              | none => "disabled")
    ∧ ((health_snapshot db ts uptime).status = "healthy" ↔
        (health_snapshot db ts uptime).checks.all
          (fun kv => kv.2 == "healthy" || kv.2 == "disabled") = true) := by
  refine ⟨rfl, rfl, ?_, ?_⟩
  · cases db with
    | none => rfl
    | some b => cases b with
      | false => rfl
      | true => rfl
  · cases db with
    | none => simp [health_snapshot]
    | some b => cases b with
      | false => simp [health_snapshot]
      | true => simp [health_snapshot]

/-- Inserting a header makes it the retrievable value for that name
(`HeaderMap::insert` overwrites). -/
theorem getHeader_insertHeader (hs : List (String × String)) (n v : String) :
    getHeader (insertHeader hs n v) n = some v := by
  induction hs with
  | nil => simp [insertHeader, getHeader]
  | cons kv rest ih =>
    by_cases h : kv.1 = n
    · simpa [insertHeader, h] using ih
    · simp [insertHeader, getHeader, List.find?, h]

/-- C5: the correlation id attached to the request seen by the
downstream handler is the incoming header value when present and
well-formed, and the fresh UUID otherwise; the response produced by
the middleware is the downstream response with its correlation-id
header overwritten by that same id, and the final response header
retrieves exactly that id. -/
theorem C5_request_id_propagation (inner : HttpRequest → Response)
    (request : HttpRequest) (freshId : String)
    (hfresh : freshId.data.all isVisibleAscii = true) :
    ∃ rid req,
      rid = (match (getHeader request.headers REQUEST_ID_HEADER).bind
                headerToStr with
             | some s => s
             | none => freshId)
      ∧ request_id_call inner request freshId =
          { inner req with
              headers :=
                insertHeader (inner req).headers REQUEST_ID_HEADER rid }
      ∧ (getHeader req.headers REQUEST_ID_HEADER).bind headerToStr = some rid
      ∧ getHeader (request_id_call inner request freshId).headers
          REQUEST_ID_HEADER = some rid := by
  cases hbind : (getHeader request.headers REQUEST_ID_HEADER).bind
      headerToStr with
  | some s =>
    refine ⟨s, request, ?_, ?_, ?_, ?_⟩
    · simp [hbind]
    · simp [request_id_call, hbind]
    · exact hbind
    · simp [request_id_call, hbind, getHeader_insertHeader]
  | none =>
    refine ⟨freshId,
      { request with
          headers := insertHeader request.headers REQUEST_ID_HEADER freshId },
      ?_, ?_, ?_, ?_⟩
    · simp [hbind]
    · simp [request_id_call, hbind]
    · rw [getHeader_insertHeader]
      simpa [headerToStr] using hfresh
    · simp [request_id_call, hbind, getHeader_insertHeader]

/-- A downstream handler used by the C5 witness. -/
def constHandler : HttpRequest → Response := fun _ => not_found_response

/-- Witness for C5: a request with no incoming correlation-id header
and the fresh id `f3a9`. -/
theorem C5_request_id_propagation_witness :
    ("f3a9" : String).data.all isVisibleAscii = true
    ∧ ∃ rid req,
        rid = (match (getHeader (HttpRequest.mk []).headers
                  REQUEST_ID_HEADER).bind headerToStr with
               | some s => s
               | none => "f3a9")
        ∧ request_id_call constHandler (HttpRequest.mk []) "f3a9" =
            { constHandler req with
                headers :=
                  insertHeader (constHandler req).headers REQUEST_ID_HEADER rid }
        ∧ (getHeader req.headers REQUEST_ID_HEADER).bind headerToStr = some rid
        ∧ getHeader (request_id_call constHandler
            (HttpRequest.mk []) "f3a9").headers REQUEST_ID_HEADER = some rid :=
  ⟨by decide,
   C5_request_id_propagation constHandler (HttpRequest.mk []) "f3a9"
     (by decide)⟩

/-- C6: the containment checks of the static resolver, the download
handler and the file-info handler are the same function of the
requested path and the static root, and when the check fails both API
handlers answer through the API error channel with a validation error
(not a transport response). -/
theorem C6_shared_containment_check (static_root p : String) :
    serve_static_check static_root p = download_file_check static_root p
    ∧ download_file_check static_root p = file_info_check static_root p
    ∧ (download_file_check static_root p = false →
        ∀ fs, download_file static_root fs p =
          Except.error (Error.validation "Invalid file path"))
    ∧ (file_info_check static_root p = false →
        ∀ fs rid ts, file_info static_root fs p rid ts =
          Except.error (Error.validation "Invalid file path")) := by
  refine ⟨rfl, rfl, ?_, ?_⟩
  · intro h fs
    simp [download_file, h]
  · intro h fs rid ts
    simp [file_info, h]

/-- Witness for C6: an absolute injected path `/etc/passwd` against
root `/srv/root` fails the shared check and both handlers answer with
the validation error. -/
theorem C6_shared_containment_check_witness :
    download_file_check "/srv/root" "/etc/passwd" = false
    ∧ download_file "/srv/root" [] "/etc/passwd" =
        Except.error (Error.validation "Invalid file path")
    ∧ file_info "/srv/root" [] "/etc/passwd" "r1" 0 =
        Except.error (Error.validation "Invalid file path") :=
  ⟨by decide,
   (C6_shared_containment_check "/srv/root" "/etc/passwd").2.2.1
     (by decide) [],
   (C6_shared_containment_check "/srv/root" "/etc/passwd").2.2.2
     (by decide) [] "r1" 0⟩

end ContainerCodes

namespace ContainerCodes

/-- If no field is named `file`, the field loop ends with the
validation error and its trace is just the field reads. -/
theorem upload_loop_no_file (upload_dir : String) (write_ok : String → Bool)
    (uuid rid : String) (ts : Int) (fields : List MultipartField)
    (h : ∀ f ∈ fields, f.name.getD "unknown" ≠ "file") :
    upload_loop upload_dir write_ok uuid rid ts fields =
      (Except.error (Error.validation "No file field found in multipart request"),
       fields.map (fun f => FsEffect.readField (f.name.getD "unknown"))) := by
  induction fields with
  | nil => rfl
  | cons f rest ih =>
    have hf := h f (List.mem_cons_self f rest)
    have ih' := ih (fun g hg => h g (List.mem_cons_of_mem f hg))
    simp [upload_loop, hf, ih']

/-- If the first field named `file` exists and writing its bytes
fails, the field loop ends with the internal save error. -/
theorem upload_loop_write_fail (upload_dir : String) (write_ok : String → Bool)
    (uuid rid : String) (ts : Int) (fields : List MultipartField)
    (f : MultipartField)
    (hfind : fields.find? (fun g => g.name.getD "unknown" == "file") = some f)
    (hw : write_ok (rustJoin upload_dir (upload_file_name f.filename uuid))
      = false) :
    (upload_loop upload_dir write_ok uuid rid ts fields).1 =
      Except.error (Error.internal "Failed to save uploaded file") := by
  induction fields with
  | nil => cases hfind
  | cons g rest ih =>
    by_cases hg : g.name.getD "unknown" = "file"
    · have hb : (g.name.getD "unknown" == "file") = true := by simpa using hg
      simp [List.find?, hb] at hfind
      subst hfind
      simp [upload_loop, hg, hw]
    · have hb : (g.name.getD "unknown" == "file") = false := by simpa using hg
      simp [List.find?, hb] at hfind
      simp [upload_loop, hg]
      exact ih hfind

/-- C9: an upload with no field named `file` fails with the
validation error; a failed upload-directory creation fails with the
directory internal error; a failed write of the found `file` field
fails with the save internal error; and validation errors are never
equal to internal errors (the two kinds are distinguishable). -/
theorem C9_upload_error_taxonomy (static_root : String)
    (create_dir_ok : Bool) (write_ok : String → Bool)
    (fields : List MultipartField) (uuid rid : String) (ts : Int) :
    (create_dir_ok = true →
      (∀ f ∈ fields, f.name.getD "unknown" ≠ "file") →
      (upload_file static_root create_dir_ok write_ok fields uuid rid ts).1 =
        Except.error
          (Error.validation "No file field found in multipart request"))
    ∧ (create_dir_ok = false →
        (upload_file static_root create_dir_ok write_ok fields uuid rid ts).1 =
          Except.error (Error.internal "Failed to create upload directory"))
    ∧ (∀ f : MultipartField, create_dir_ok = true →
        fields.find? (fun g => g.name.getD "unknown" == "file") = some f →
        write_ok (rustJoin (rustJoin static_root "uploads")
          (upload_file_name f.filename uuid)) = false →
        (upload_file static_root create_dir_ok write_ok fields uuid rid ts).1 =
          Except.error (Error.internal "Failed to save uploaded file"))
    ∧ (∀ m m' : String, Error.validation m ≠ Error.internal m') := by
  refine ⟨?_, ?_, ?_, ?_⟩
  · intro hc hnf
    subst hc
    simp [upload_file,
      upload_loop_no_file _ write_ok uuid rid ts fields hnf]
  · intro hc
    subst hc
    simp [upload_file]
  · intro f hc hfind hw
    subst hc
    simp [upload_file,
      upload_loop_write_fail _ write_ok uuid rid ts fields f hfind hw]
  · exact fun m m' h => Error.noConfusion h

/-- A field named `avatar` (not `file`) used by the upload witnesses. -/
def avatarField : MultipartField :=
  { name := some "avatar", filename := none, data := [] }

/-- A write oracle that always succeeds, used by the upload witnesses. -/
def alwaysWrite : String → Bool := fun _ => true

/-- Witness for C9: a multipart body whose only field is named
`avatar` is rejected with the validation error. -/
theorem C9_upload_error_taxonomy_witness :
    (∀ f ∈ [avatarField], f.name.getD "unknown" ≠ "file")
    ∧ (upload_file "/srv/root" true alwaysWrite [avatarField]
        "u1" "r1" 0).1 =
      Except.error
        (Error.validation "No file field found in multipart request") :=
  ⟨by decide,
   (C9_upload_error_taxonomy "/srv/root" true alwaysWrite [avatarField]
     "u1" "r1" 0).1 rfl (by decide)⟩

/-- C10: the upload handler attempts to create the uploads directory
first — the effect trace always starts with `createDirAll` — so a
request rejected with the missing-`file` validation error has still
created the uploads directory (the trace contains the creation). -/
theorem C10_upload_dir_created_before_fields (static_root : String)
    (create_dir_ok : Bool) (write_ok : String → Bool)
    (fields : List MultipartField) (uuid rid : String) (ts : Int) :
    (∃ rest,
      (upload_file static_root create_dir_ok write_ok fields uuid rid ts).2 =
        FsEffect.createDirAll (rustJoin static_root "uploads") :: rest)
    ∧ (create_dir_ok = true →
        (∀ f ∈ fields, f.name.getD "unknown" ≠ "file") →
        (upload_file static_root create_dir_ok write_ok fields uuid rid ts).1 =
            Except.error
              (Error.validation "No file field found in multipart request")
          ∧ FsEffect.createDirAll (rustJoin static_root "uploads") ∈
              (upload_file static_root create_dir_ok write_ok fields
                uuid rid ts).2) := by
  constructor
  · cases create_dir_ok with
    | false => exact ⟨[], rfl⟩
    | true =>
      exact ⟨(upload_loop (rustJoin static_root "uploads") write_ok uuid rid
        ts fields).2, rfl⟩
  · intro hc hnf
    subst hc
    constructor
    · simp [upload_file,
        upload_loop_no_file _ write_ok uuid rid ts fields hnf]
    · simp [upload_file]

/-- Witness for C10: the `avatar`-only upload is rejected with the
validation error, yet its effect trace contains the directory
creation. -/
theorem C10_upload_dir_created_before_fields_witness :
    (upload_file "/srv/root" true alwaysWrite [avatarField] "u1" "r1" 0).1 =
        Except.error
          (Error.validation "No file field found in multipart request")
    ∧ FsEffect.createDirAll (rustJoin "/srv/root" "uploads") ∈
        (upload_file "/srv/root" true alwaysWrite [avatarField]
          "u1" "r1" 0).2 :=
  (C10_upload_dir_created_before_fields "/srv/root" true alwaysWrite
    [avatarField] "u1" "r1" 0).2 rfl (by decide)

end ContainerCodes
